import Mathlib

/-!
Shallow embedding of the weather-dashboard application.

The repository is a Next.js single-page weather lookup.  The parts the
verification needs are:

* `src/lib/constants` (src/unnamed/part_002, first section): delay, timeout
  and message constants;
* `src/lib/weather-service` (src/unnamed/part_002, second section): the
  `WeatherService.fetchWeather` client of the upstream provider;
* `src/lib/search-logger` (src/unnamed/part_002, third section): the
  fire-and-forget `SearchLogger.logSearch`;
* `src/app/api/weather/route.ts` (second document in the file): the `GET`
  handler mapping service results to HTTP responses;
* `src/app/api/log-search/route.ts`: the `POST` handler recording searches;
* `src/app/weather-dashboard/page.tsx`: the client coordinator
  (`updateWeatherState`, `fetchWeather`, the debounce effect and the JSX
  render guards).

Network and timer effects are modelled by making each external outcome an
explicit input (an inductive type of the possible resolutions of a `fetch`
or of a timer), and the single-threaded event loop by a step function over
an explicit coordinator state.
-/

/-! ### Constants (`src/lib/constants`) -/

def DEBOUNCE_DELAY_MS : Nat := 500

def WEATHER_API_TIMEOUT_MS : Nat := 10000

namespace ERROR_MESSAGES

def CITY_REQUIRED : String := "Please enter a city name"

def CITY_NOT_FOUND : String := "City not found. Please check the spelling and try again."

def NETWORK_ERROR : String := "Network error. Please check your connection and try again."

def SERVER_ERROR : String := "Server error. Please try again later."

def UNKNOWN_ERROR : String := "An unexpected error occurred. Please try again."

def API_KEY_MISSING : String := "Weather API key is not configured."

end ERROR_MESSAGES

/-! ### Data model (`src/types/weather.ts`) -/

/-- Weather snapshot record (`WeatherData` in `src/types/weather.ts`).
The coordinator and the routes treat it as an opaque record. -/
structure WeatherData where
  city : String
  temperature : Int
  description : String
  icon : String
deriving DecidableEq, Repr

/-- Search log entry (`SearchLog` in `src/types/weather.ts`). -/
structure SearchLog where
  city : String
  timestamp : String
deriving DecidableEq, Repr

/-- The whitespace characters `String.prototype.trim` strips. -/
def isJsWhitespace (c : Char) : Bool :=
  c = ' ' || c = '\t' || c = '\n' || c = '\r'

/-- JavaScript `s.trim()`: the string with leading and trailing
whitespace removed. -/
def jsTrim (s : String) : String :=
  ⟨((s.data.dropWhile isJsWhitespace).reverse.dropWhile isJsWhitespace).reverse⟩

/-- Whether a string is empty (`""` is the only falsy string). -/
def jsStrEmpty (s : String) : Bool := s.data.isEmpty

/-- JavaScript `x || dflt` on an optional string field: `undefined`, `null`
and the empty string are falsy and select the default. -/
def jsOrStr (v : Option String) (dflt : String) : String :=
  match v with
  | some s => if jsStrEmpty s then dflt else s
  | none => dflt

/-! ### Weather service (`src/lib/weather-service`) -/

/-- The possible resolutions of the outward `fetch` to the provider inside
`WeatherService.fetchWeather`:
* `ok data` — OK status, body parses as a snapshot;
* `okBadJson` — OK status but `response.json()` rejects;
* `httpError status message` — non-OK status, with the optional `message`
  field of the parsed error body (`parseErrorResponse`);
* `aborted` — the `AbortController` fired (the timeout elapsed), so `fetch`
  rejected with an `AbortError`;
* `fetchTypeError` — `fetch` rejected with a `TypeError` whose message
  mentions `fetch` (transport failure);
* `otherFailure` — any other exception inside the `try` block. -/
inductive UpstreamOutcome where
  | ok (data : WeatherData)
  | okBadJson
  | httpError (status : Nat) (message : Option String)
  | aborted
  | fetchTypeError
  | otherFailure
deriving DecidableEq, Repr

/-- The result of `WeatherService.fetchWeather`: a snapshot, or one of the
error classes of `src/lib/errors` (`ValidationError`, `WeatherAPIError`
with its `statusCode`, `NetworkError`), each carrying its message. -/
inductive SvcResult where
  | ok (data : WeatherData)
  | validationError (message : String)
  | apiError (message : String) (statusCode : Nat)
  | networkError (message : String)
deriving DecidableEq, Repr

/-- Effective timeout of a `WeatherService`: `config.timeout ||
WEATHER_API_TIMEOUT_MS` (a `0` is falsy in JavaScript). -/
def serviceTimeout (configTimeout : Option Nat) : Nat :=
  match configTimeout with
  | some t => if t = 0 then WEATHER_API_TIMEOUT_MS else t
  | none => WEATHER_API_TIMEOUT_MS

/-- `WeatherService.fetchWeather` (src/unnamed/part_002, lines 65-130).
The validation guard rejects an empty or whitespace-only city before any
request; otherwise the result is determined by the upstream outcome:
status 400 maps to a `WeatherAPIError` echoing the provider message (or
the not-found default), any other non-OK status to a `WeatherAPIError`
with the generic server message and that status, abort and transport
`TypeError` to a `NetworkError`, and every remaining exception (including
a malformed success body) to a `WeatherAPIError` with the unknown-error
message and status 500. -/
def WeatherService_fetchWeather (city : String) (upstream : UpstreamOutcome) : SvcResult :=
  if jsStrEmpty (jsTrim city) then
    .validationError ERROR_MESSAGES.CITY_REQUIRED
  else
    match upstream with
    | .ok data => .ok data
    | .okBadJson => .apiError ERROR_MESSAGES.UNKNOWN_ERROR 500
    | .httpError status message =>
        if status = 400 then
          .apiError (jsOrStr message ERROR_MESSAGES.CITY_NOT_FOUND) 400
        else
          .apiError ERROR_MESSAGES.SERVER_ERROR status
    | .aborted => .networkError ERROR_MESSAGES.NETWORK_ERROR
    | .fetchTypeError => .networkError ERROR_MESSAGES.NETWORK_ERROR
    | .otherFailure => .apiError ERROR_MESSAGES.UNKNOWN_ERROR 500

/-! ### Weather route (`src/app/api/weather/route.ts`, second document) -/

/-- Body of a response of the weather route: either a snapshot or an
`{error: string}` object. -/
inductive WeatherRouteBody where
  | weather (data : WeatherData)
  | error (message : String)
deriving DecidableEq, Repr

/-- An HTTP response of the weather route. -/
structure WeatherRouteResponse where
  status : Nat
  body : WeatherRouteBody
deriving DecidableEq, Repr

/-- `GET /api/weather` (route.ts lines 63-124).  A missing or empty `city`
query parameter is falsy and yields 400; otherwise the service result is
mapped: `ValidationError` to 400, `WeatherAPIError` to
`error.statusCode || 500`, `NetworkError` to 500. -/
def weatherRoute_GET (city : Option String) (upstream : UpstreamOutcome) :
    WeatherRouteResponse :=
  match city with
  | none => ⟨400, .error ERROR_MESSAGES.CITY_REQUIRED⟩
  | some c =>
    if jsStrEmpty c then ⟨400, .error ERROR_MESSAGES.CITY_REQUIRED⟩
    else
      match WeatherService_fetchWeather c upstream with
      | .ok data => ⟨200, .weather data⟩
      | .validationError m => ⟨400, .error m⟩
      | .apiError m statusCode => ⟨if statusCode = 0 then 500 else statusCode, .error m⟩
      | .networkError m => ⟨500, .error m⟩

/-! ### Log-search route (`src/app/api/log-search/route.ts`) -/

/-- The `city` field of a parsed request body: absent or falsy
(`missing`), present but not a string (`notString`), or a string. -/
inductive CityField where
  | missing
  | notString
  | str (s : String)
deriving DecidableEq, Repr

/-- A request to `POST /api/log-search`: either the body fails to parse as
JSON (`req.json()` rejects) or it parses with some `city` field. -/
inductive LogPostRequest where
  | badJson
  | parsed (city : CityField)
deriving DecidableEq, Repr

/-- An HTTP response of the log route's `POST` handler.  `success`,
`error` and `loggedAt` are `none` when the corresponding JSON field is
absent from the body. -/
structure LogPostResponse where
  status : Nat
  success : Option Bool
  error : Option String
  loggedAt : Option String
deriving DecidableEq, Repr

def MAX_LOGS : Nat := 1000

/-- `POST /api/log-search` (route.ts lines 24-73), as a function of the
request, the current timestamp and the in-memory `searchLogs` list.
A missing, non-string or whitespace-only city yields 400 with an error
body; a valid city appends a trimmed entry (evicting the oldest past
`MAX_LOGS`) and yields 200 `{success: true}`; a body that fails to parse
is caught and yields 200 `{success: false}`. -/
def logSearchRoute_POST (req : LogPostRequest) (now : String)
    (logs : List SearchLog) : LogPostResponse × List SearchLog :=
  match req with
  | .badJson =>
      (⟨200, some false, some "Logging failed but request processed", none⟩, logs)
  | .parsed city =>
    match city with
    | .str s =>
        if jsStrEmpty (jsTrim s) then
          (⟨400, none, some "City is required and must be a non-empty string", none⟩, logs)
        else
          let entry : SearchLog := ⟨jsTrim s, now⟩
          let grown := logs ++ [entry]
          let kept := if grown.length > MAX_LOGS then grown.drop 1 else grown
          (⟨200, some true, none, some now⟩, kept)
    | _ =>
        (⟨400, none, some "City is required and must be a non-empty string", none⟩, logs)

/-! ### Search logger client (`src/lib/search-logger`) -/

/-- The possible resolutions of the background `POST` issued by
`SearchLogger.logSearch`: resolved with an OK status, resolved with a
non-OK status, or rejected (network failure, timeout, malformed
response). -/
inductive LogCallOutcome where
  | resolvedOk
  | resolvedStatus (status : Nat)
  | rejected
deriving DecidableEq, Repr

/-- What a run of `SearchLogger.logSearch` produces: whether an exception
escapes to the caller, whether a `POST` was issued, and the diagnostic
messages emitted through `logger`. -/
structure LogSearchRun where
  threw : Bool
  requested : Bool
  diagnostics : List String
deriving DecidableEq, Repr

/-- `SearchLogger.logSearch` (src/unnamed/part_002, lines 164-197).  An
empty or whitespace-only city returns early without a request; otherwise
the request is fired and each resolution is handled by a `.then`/`.catch`
handler whose whole body is a `logger` diagnostic call, so no branch
throws to the caller. -/
def searchLogger_logSearch (city : String) (outcome : LogCallOutcome) : LogSearchRun :=
  if jsStrEmpty (jsTrim city) then
    ⟨false, false, ["Skipping log for empty city"]⟩
  else
    match outcome with
    | .resolvedOk => ⟨false, true, ["Search logged successfully"]⟩
    | .resolvedStatus _ => ⟨false, true, ["Search log request failed"]⟩
    | .rejected => ⟨false, true, ["Failed to log search"]⟩

/-! ### Dashboard coordinator (`src/app/weather-dashboard/page.tsx`) -/

/-- The visible state of the dashboard (`WeatherState` in page.tsx). -/
structure WeatherState where
  data : Option WeatherData
  loading : Bool
  error : Option String
deriving DecidableEq, Repr

/-- A `Partial<WeatherState>`: each field is `some v` when the update
object carries it and `none` when it is absent (so the previous value is
kept by the spread `{...prev, ...updates}`). -/
structure WeatherUpdate where
  data : Option (Option WeatherData)
  loading : Option Bool
  error : Option (Option String)
deriving DecidableEq, Repr

/-- The spread `{...prev, ...updates}`. -/
def applyUpdates (prev : WeatherState) (u : WeatherUpdate) : WeatherState :=
  ⟨u.data.getD prev.data, u.loading.getD prev.loading, u.error.getD prev.error⟩

/-- `updateWeatherState` (page.tsx lines 38-45): the update is applied
only when the captured `searchId` equals the current value of
`searchIdRef`. -/
def updateWeatherState (cur searchId : Nat) (u : WeatherUpdate) (st : WeatherState) :
    WeatherState :=
  if searchId = cur then applyUpdates st u else st

/-- The update object of the empty-input clear (page.tsx lines 55-59). -/
def clearUpdate : WeatherUpdate := ⟨some none, some false, some none⟩

/-- The update object setting the loading state (page.tsx lines 64-67):
`data` is absent, so a previous snapshot is kept while loading. -/
def loadingUpdate : WeatherUpdate := ⟨none, some true, some none⟩

/-- The update object of an accepted success (page.tsx lines 95-99). -/
def successUpdate (d : WeatherData) : WeatherUpdate := ⟨some (some d), some false, some none⟩

/-- The update object of an accepted failure (page.tsx lines 114-118). -/
def failureUpdate (m : String) : WeatherUpdate := ⟨some none, some false, some (some m)⟩

/-- The possible resolutions of the dashboard's `fetch` of
`/api/weather`:
* `ok data` — `response.ok` and the body parses as a snapshot;
* `okBadJson msg` — `response.ok` but `response.json()` rejects with an
  `Error` whose message is `msg`;
* `httpError errorField` — non-OK response, with the optional `error`
  field of the parsed body (absent when the body fails to parse);
* `fetchReject msg` — `fetch` rejects with an `Error` whose message is
  `msg`;
* `rejectNonError` — a thrown value that is not an `Error` instance. -/
inductive ClientLookupOutcome where
  | ok (data : WeatherData)
  | okBadJson (errorMessage : String)
  | httpError (errorField : Option String)
  | fetchReject (errorMessage : String)
  | rejectNonError
deriving DecidableEq, Repr

/-- What one run of the dashboard's `fetchWeather` produces: the visible
state it leaves, the cities passed to `searchLogger.logSearch`, and
whether a lookup request was issued. -/
structure FetchRun where
  state : WeatherState
  loggedCities : List String
  lookupRequested : Bool
deriving DecidableEq, Repr

/-- `fetchWeather` (page.tsx lines 51-121).  `cur` is the value of
`searchIdRef.current` when the awaited steps of the run resume (the
counter never decreases, and every state write re-checks it through
`updateWeatherState`).  An empty trimmed city clears the state and issues
no request; otherwise the loading update is applied, the request is
issued, and the outcome is applied only behind the staleness guards of
lines 80, 94 and 109. -/
def fetchWeather (cityName : String) (searchId : Nat) (cur : Nat)
    (outcome : ClientLookupOutcome) (st : WeatherState) : FetchRun :=
  let trimmedCity := jsTrim cityName
  if jsStrEmpty trimmedCity then
    ⟨updateWeatherState cur searchId clearUpdate st, [], false⟩
  else
    let st1 := updateWeatherState cur searchId loadingUpdate st
    match outcome with
    | .ok data =>
        if searchId ≠ cur then ⟨st1, [], true⟩
        else if searchId = cur then
          ⟨updateWeatherState cur searchId (successUpdate data) st1, [trimmedCity], true⟩
        else ⟨st1, [], true⟩
    | .okBadJson errorMessage =>
        if searchId ≠ cur then ⟨st1, [], true⟩
        else if searchId = cur then
          ⟨updateWeatherState cur searchId (failureUpdate errorMessage) st1, [], true⟩
        else ⟨st1, [], true⟩
    | .httpError errorField =>
        if searchId ≠ cur then ⟨st1, [], true⟩
        else
          let errorMessage := jsOrStr errorField ERROR_MESSAGES.UNKNOWN_ERROR
          if searchId = cur then
            ⟨updateWeatherState cur searchId (failureUpdate errorMessage) st1, [], true⟩
          else ⟨st1, [], true⟩
    | .fetchReject errorMessage =>
        if searchId = cur then
          ⟨updateWeatherState cur searchId (failureUpdate errorMessage) st1, [], true⟩
        else ⟨st1, [], true⟩
    | .rejectNonError =>
        if searchId = cur then
          ⟨updateWeatherState cur searchId (failureUpdate ERROR_MESSAGES.UNKNOWN_ERROR) st1, [], true⟩
        else ⟨st1, [], true⟩

/-- The coordinator's state: the `searchIdRef` counter, the visible
state, the cities handed to the logger, and the diagnostics emitted by
the logger's handlers. -/
structure CoordState where
  cur : Nat
  visible : WeatherState
  loggedCities : List String
  diagnostics : List String
deriving DecidableEq, Repr

/-- The events of the single-threaded event loop:
* `schedule` — the debounce effect runs on a keystroke (page.tsx lines
  128-149): the previous timer is cleared and `searchIdRef` is
  incremented;
* `apply cityName token outcome` — a debounce timer that was not cleared
  fires and its `fetchWeather cityName token` run resumes with the given
  lookup outcome;
* `logResolve city outcome` — the detached promise chain of a
  `searchLogger.logSearch city` call resolves with the given outcome. -/
inductive Event where
  | schedule
  | apply (cityName : String) (token : Nat) (outcome : ClientLookupOutcome)
  | logResolve (city : String) (outcome : LogCallOutcome)
deriving Repr

/-- One event-loop step of the coordinator. -/
def stepEvent (s : CoordState) : Event → CoordState
  | .schedule => ⟨s.cur + 1, s.visible, s.loggedCities, s.diagnostics⟩
  | .apply cityName token outcome =>
      let r := fetchWeather cityName token s.cur outcome s.visible
      ⟨s.cur, r.state, s.loggedCities ++ r.loggedCities, s.diagnostics⟩
  | .logResolve city outcome =>
      let run := searchLogger_logSearch city outcome
      ⟨s.cur, s.visible, s.loggedCities, s.diagnostics ++ run.diagnostics⟩

/-- The initial visible state (page.tsx lines 25-29). -/
def initWeatherState : WeatherState := ⟨none, false, none⟩

/-- The initial coordinator state (`searchIdRef` starts at 0). -/
def initCoord : CoordState := ⟨0, initWeatherState, [], []⟩

/-- A coordinator state reachable by some sequence of events. -/
def Reachable (s : CoordState) : Prop :=
  ∃ evs : List Event, s = evs.foldl stepEvent initCoord

/-! ### Render guards (page.tsx lines 192-300) -/

/-- JavaScript truthiness of a nullable string: `null` and `""` are
falsy. -/
def strTruthy : Option String → Bool
  | none => false
  | some s => !jsStrEmpty s

/-- Guard of the loading spinner: `weatherState.loading`. -/
def showLoading (st : WeatherState) : Bool := st.loading

/-- Guard of the error banner: `weatherState.error && !weatherState.loading`. -/
def showError (st : WeatherState) : Bool := strTruthy st.error && !st.loading

/-- Guard of the weather card: `weatherState.data && !weatherState.loading`. -/
def showCard (st : WeatherState) : Bool := st.data.isSome && !st.loading

/-- Guard of the empty-state hint: `!weatherState.loading &&
!weatherState.error && !weatherState.data && city.trim()`. -/
def showEmptyHint (st : WeatherState) (city : String) : Bool :=
  !st.loading && !strTruthy st.error && !st.data.isSome && !jsStrEmpty (jsTrim city)

/-- How many of the four conditional UI elements render at once. -/
def countShown (st : WeatherState) (city : String) : Nat :=
  (if showLoading st then 1 else 0) + (if showError st then 1 else 0) +
    (if showCard st then 1 else 0) + (if showEmptyHint st city then 1 else 0)

/-- The four outcome kinds claimed for the lookup client: success, a
not-found `WeatherAPIError` with status 400, a `WeatherAPIError` with the
generic server message, or a `NetworkError` with the generic network
message. -/
def claimedFourOutcome (r : SvcResult) : Bool :=
  match r with
  | .ok _ => true
  | .validationError _ => false
  | .apiError message statusCode =>
      statusCode == 400 || message == ERROR_MESSAGES.SERVER_ERROR
  | .networkError message => message == ERROR_MESSAGES.NETWORK_ERROR

/-- At most one of the snapshot and the error message is set. -/
def ExclusiveState (st : WeatherState) : Prop :=
  st.data = none ∨ st.error = none

/-! ### Helper lemmas -/

/-- A stale run changes nothing visible and logs nothing. -/
lemma fetchWeather_stale (cityName : String) (searchId cur : Nat)
    (outcome : ClientLookupOutcome) (st : WeatherState) (h : searchId ≠ cur) :
    (fetchWeather cityName searchId cur outcome st).state = st ∧
      (fetchWeather cityName searchId cur outcome st).loggedCities = [] := by
  unfold fetchWeather updateWeatherState
  cases outcome <;> simp [h] <;> split <;> simp

/-- The counter never decreases under one step. -/
lemma stepEvent_cur_mono (s : CoordState) (e : Event) : s.cur ≤ (stepEvent s e).cur := by
  cases e <;> simp [stepEvent]

/-- The counter never decreases along a trace. -/
lemma foldl_cur_mono : ∀ (evs : List Event) (s : CoordState),
    s.cur ≤ (evs.foldl stepEvent s).cur := by
  intro evs
  induction evs with
  | nil => intro s; exact Nat.le_refl _
  | cons e rest ih =>
      intro s
      exact Nat.le_trans (stepEvent_cur_mono s e) (ih (stepEvent s e))

/-- A run whose outcome is not a success logs nothing. -/
lemma fetchWeather_logged_of_not_ok (cityName : String) (searchId cur : Nat)
    (outcome : ClientLookupOutcome) (st : WeatherState)
    (hno : ∀ d : WeatherData, outcome ≠ .ok d) :
    (fetchWeather cityName searchId cur outcome st).loggedCities = [] := by
  unfold fetchWeather updateWeatherState
  cases outcome with
  | ok d => exact absurd rfl (hno d)
  | okBadJson m => split <;> simp <;> split <;> simp
  | httpError f => split <;> simp <;> split <;> simp
  | fetchReject m => split <;> simp <;> split <;> simp
  | rejectNonError => split <;> simp <;> split <;> simp

/-! ### Claims -/

/-- C1: Every lookup outcome (success, error, or empty-input clear) whose
captured sequence token differs from the coordinator's current counter
when applied causes no visible-state transition (and no logger
invocation); in particular, once the counter has passed a lookup's token
— as after a later-scheduled lookup's result was applied — that lookup's
result never overwrites visible state no matter how many further events
elapse before it resolves. -/
theorem c1_stale_lookup_never_overwrites (s : CoordState) (c : String) (t : Nat)
    (o : ClientLookupOutcome) :
    (t ≠ s.cur →
      (stepEvent s (.apply c t o)).visible = s.visible ∧
      (stepEvent s (.apply c t o)).loggedCities = s.loggedCities) ∧
    (∀ evs : List Event, t < s.cur →
      (stepEvent (evs.foldl stepEvent s) (.apply c t o)).visible =
        (evs.foldl stepEvent s).visible) := by
  constructor
  · intro h
    have h2 := fetchWeather_stale c t s.cur o s.visible h
    simp [stepEvent, h2.1, h2.2]
  · intro evs h
    have hm := foldl_cur_mono evs s
    have hne : t ≠ (evs.foldl stepEvent s).cur := by omega
    have h2 := fetchWeather_stale c t (evs.foldl stepEvent s).cur o
      (evs.foldl stepEvent s).visible hne
    simp [stepEvent, h2.1]

/-- Witness for C1 at a concrete stale token. -/
theorem c1_stale_lookup_never_overwrites_witness :
    (stepEvent ⟨2, initWeatherState, [], []⟩
        (.apply "Paris" 1 (.httpError none))).visible =
      (⟨2, initWeatherState, [], []⟩ : CoordState).visible :=
  ((c1_stale_lookup_never_overwrites ⟨2, initWeatherState, [], []⟩ "Paris" 1
      (.httpError none)).1 (by decide)).1

/-- C5: When the debounce timer fires with an empty or whitespace-only
query (and its token is current, as it is when the timer was not
cleared), the run sets the visible state to no data, no error, not
loading, invokes no logger, and issues no lookup request. -/
theorem c5_empty_query_clears_without_lookup (cityName : String) (searchId : Nat)
    (outcome : ClientLookupOutcome) (st : WeatherState)
    (hEmpty : jsStrEmpty (jsTrim cityName) = true) :
    fetchWeather cityName searchId searchId outcome st =
      ⟨⟨none, false, none⟩, [], false⟩ := by
  unfold fetchWeather updateWeatherState
  simp [hEmpty, applyUpdates, clearUpdate]

/-- Witness for C5 on a whitespace-only query over a loaded state. -/
theorem c5_empty_query_clears_without_lookup_witness :
    fetchWeather "   " 3 3 .rejectNonError
        ⟨some ⟨"London", 20, "Sunny", "icon"⟩, true, some "old error"⟩ =
      ⟨⟨none, false, none⟩, [], false⟩ :=
  c5_empty_query_clears_without_lookup "   " 3 .rejectNonError
    ⟨some ⟨"London", 20, "Sunny", "icon"⟩, true, some "old error"⟩ (by decide)

/-- C8: A lookup that completes successfully while still current logs
exactly the trimmed city once; a failed, stale, or empty-input run logs
nothing. -/
theorem c8_logger_invocation_discipline (cityName : String) (searchId cur : Nat)
    (outcome : ClientLookupOutcome) (st : WeatherState) :
    (∀ d : WeatherData, outcome = .ok d → jsStrEmpty (jsTrim cityName) = false →
      searchId = cur →
      (fetchWeather cityName searchId cur outcome st).loggedCities = [jsTrim cityName]) ∧
    ((∀ d : WeatherData, outcome ≠ .ok d) →
      (fetchWeather cityName searchId cur outcome st).loggedCities = []) ∧
    (searchId ≠ cur →
      (fetchWeather cityName searchId cur outcome st).loggedCities = []) ∧
    (jsStrEmpty (jsTrim cityName) = true →
      (fetchWeather cityName searchId cur outcome st).loggedCities = []) := by
  refine ⟨?_, ?_, ?_, ?_⟩
  · intro d hd hne hcur
    subst hd; subst hcur
    unfold fetchWeather
    simp [hne]
  · exact fetchWeather_logged_of_not_ok cityName searchId cur outcome st
  · intro h
    exact (fetchWeather_stale cityName searchId cur outcome st h).2
  · intro h
    unfold fetchWeather
    simp [h]

/-- Witness for C8: a current successful lookup logs the trimmed city. -/
theorem c8_logger_invocation_discipline_witness :
    (fetchWeather " Paris " 4 4 (.ok ⟨"Paris", 18, "Cloudy", "icon"⟩)
        initWeatherState).loggedCities = [jsTrim " Paris "] :=
  (c8_logger_invocation_discipline " Paris " 4 4
      (.ok ⟨"Paris", 18, "Cloudy", "icon"⟩) initWeatherState).1
    ⟨"Paris", 18, "Cloudy", "icon"⟩ rfl (by decide) rfl

/-- Every update object the coordinator applies keeps the data/error
exclusivity. -/
lemma exclusive_applyUpdates (st : WeatherState) (u : WeatherUpdate)
    (hu : u = clearUpdate ∨ u = loadingUpdate ∨ (∃ d, u = successUpdate d) ∨
      (∃ m, u = failureUpdate m)) : ExclusiveState (applyUpdates st u) := by
  rcases hu with h1 | h1 | ⟨d, h1⟩ | ⟨m, h1⟩ <;> subst h1 <;>
    simp [applyUpdates, clearUpdate, loadingUpdate, successUpdate, failureUpdate,
      ExclusiveState]

/-- `updateWeatherState` with an allowed update object keeps the
exclusivity. -/
lemma exclusive_update (cur searchId : Nat) (st : WeatherState) (u : WeatherUpdate)
    (hu : u = clearUpdate ∨ u = loadingUpdate ∨ (∃ d, u = successUpdate d) ∨
      (∃ m, u = failureUpdate m))
    (h : ExclusiveState st) : ExclusiveState (updateWeatherState cur searchId u st) := by
  unfold updateWeatherState
  split
  · exact exclusive_applyUpdates st u hu
  · exact h

/-- A `fetchWeather` run keeps the exclusivity. -/
lemma fetchWeather_exclusive (cityName : String) (searchId cur : Nat)
    (outcome : ClientLookupOutcome) (st : WeatherState) (h : ExclusiveState st) :
    ExclusiveState (fetchWeather cityName searchId cur outcome st).state := by
  have h1 : ExclusiveState (updateWeatherState cur searchId loadingUpdate st) :=
    exclusive_update cur searchId st loadingUpdate (Or.inr (Or.inl rfl)) h
  have hc : ExclusiveState (updateWeatherState cur searchId clearUpdate st) :=
    exclusive_update cur searchId st clearUpdate (Or.inl rfl) h
  cases outcome <;> unfold fetchWeather <;> dsimp only <;> split_ifs <;>
    first
      | exact hc
      | exact h1
      | exact exclusive_update cur searchId _ _ (Or.inr (Or.inr (Or.inl ⟨_, rfl⟩))) h1
      | exact exclusive_update cur searchId _ _ (Or.inr (Or.inr (Or.inr ⟨_, rfl⟩))) h1

/-- One event-loop step keeps the exclusivity of the visible state. -/
lemma stepEvent_exclusive (s : CoordState) (e : Event)
    (h : ExclusiveState s.visible) : ExclusiveState (stepEvent s e).visible := by
  cases e with
  | schedule => exact h
  | apply cityName token outcome =>
      exact fetchWeather_exclusive cityName token s.cur outcome s.visible h
  | logResolve city outcome => exact h

/-- Every reachable visible state keeps the exclusivity. -/
lemma reachable_exclusive (s : CoordState) (h : Reachable s) :
    ExclusiveState s.visible := by
  obtain ⟨evs, rfl⟩ := h
  have key : ∀ (l : List Event) (t : CoordState), ExclusiveState t.visible →
      ExclusiveState ((l.foldl stepEvent t).visible) := by
    intro l
    induction l with
    | nil => intro t ht; exact ht
    | cons e rest ih =>
        intro t ht
        exact ih (stepEvent t e) (stepEvent_exclusive t e ht)
  exact key evs initCoord (Or.inl rfl)

/-- C10: In every reachable coordinator state at most one of the snapshot
and the error message is non-null; moreover an accepted success update
sets the snapshot and nulls the error, an accepted failure update sets
the error and nulls the snapshot, and the empty-input clear nulls both. -/
theorem c10_data_error_exclusive (s : CoordState) (h : Reachable s) :
    (s.visible.data = none ∨ s.visible.error = none) ∧
    (∀ (cur : Nat) (st : WeatherState) (d : WeatherData),
      updateWeatherState cur cur (successUpdate d) st = ⟨some d, false, none⟩) ∧
    (∀ (cur : Nat) (st : WeatherState) (m : String),
      updateWeatherState cur cur (failureUpdate m) st = ⟨none, false, some m⟩) ∧
    (∀ (cur : Nat) (st : WeatherState),
      updateWeatherState cur cur clearUpdate st = ⟨none, false, none⟩) := by
  refine ⟨reachable_exclusive s h, ?_, ?_, ?_⟩ <;> intros <;>
    simp [updateWeatherState, applyUpdates, successUpdate, failureUpdate, clearUpdate]

/-- Witness for C10 at the initial (reachable) coordinator state. -/
theorem c10_data_error_exclusive_witness :
    initCoord.visible.data = none ∨ initCoord.visible.error = none :=
  (c10_data_error_exclusive initCoord ⟨[], rfl⟩).1

/-- C9: Whatever the background logging call's outcome (OK response,
non-OK response, rejection), `logSearch` never throws to the caller and
the corresponding event-loop step leaves the visible state, the counter
and the logged-city record unchanged. -/
theorem c9_logger_never_affects_state_or_throws (s : CoordState) (city : String)
    (outcome : LogCallOutcome) :
    (searchLogger_logSearch city outcome).threw = false ∧
    (stepEvent s (.logResolve city outcome)).visible = s.visible ∧
    (stepEvent s (.logResolve city outcome)).cur = s.cur ∧
    (stepEvent s (.logResolve city outcome)).loggedCities = s.loggedCities := by
  refine ⟨?_, rfl, rfl, rfl⟩
  unfold searchLogger_logSearch
  split
  · rfl
  · cases outcome <;> rfl

/-- C4 (amended): In every reachable visible state at most one of the
four UI elements renders, and exactly one renders whenever the spinner,
banner or card condition holds or the trimmed query is non-empty; in the
idle state with an empty trimmed query, no data, no truthy error and no
loading flag, none of the four renders. -/
theorem c4_at_most_one_element (s : CoordState) (h : Reachable s) (city : String) :
    countShown s.visible city ≤ 1 ∧
    (countShown s.visible city = 1 ↔
      (s.visible.loading = true ∨ strTruthy s.visible.error = true ∨
        s.visible.data.isSome = true ∨ jsStrEmpty (jsTrim city) = false)) := by
  have hex := reachable_exclusive s h
  unfold ExclusiveState at hex
  generalize hv : s.visible = st at hex ⊢
  obtain ⟨d, l, e⟩ := st
  dsimp only at hex ⊢
  cases l with
  | true =>
      simp [countShown, showLoading, showError, showCard, showEmptyHint]
  | false =>
      cases d with
      | some dv =>
          have he : e = none := by
            rcases hex with h1 | h1
            · exact absurd h1 (by simp)
            · exact h1
          subst he
          simp [countShown, showLoading, showError, showCard, showEmptyHint, strTruthy]
      | none =>
          cases e with
          | none =>
              by_cases hb : jsStrEmpty (jsTrim city) = true <;>
                simp [countShown, showLoading, showError, showCard, showEmptyHint,
                  strTruthy, hb]
          | some m =>
              by_cases hm : jsStrEmpty m = true
              · by_cases hb : jsStrEmpty (jsTrim city) = true <;>
                  simp [countShown, showLoading, showError, showCard, showEmptyHint,
                    strTruthy, hm, hb]
              · simp [countShown, showLoading, showError, showCard, showEmptyHint,
                  strTruthy, hm]

/-- Witness for C4's amended statement at the reachable initial state with
a non-empty query. -/
theorem c4_at_most_one_element_witness :
    countShown initCoord.visible "London" ≤ 1 :=
  (c4_at_most_one_element initCoord ⟨[], rfl⟩ "London").1

/-- C4 counterexample: in the reachable initial state — empty query, no
data, no error, not loading — none of the four UI elements renders, so
"exactly one is rendered at a time" fails there. -/
theorem c4_counterexample :
    Reachable initCoord ∧ countShown initCoord.visible "" = 0 ∧
      countShown initCoord.visible "" ≠ 1 :=
  ⟨⟨[], rfl⟩, by decide, by decide⟩

/-- C2 counterexample: a request whose parsed body lacks a city is
answered with status 400 and no `success` field, not with 200 and a
boolean `success`. -/
theorem c2_counterexample :
    (logSearchRoute_POST (.parsed .missing) "2024-01-01T00:00:00Z" []).1.status = 400 ∧
    (logSearchRoute_POST (.parsed .missing) "2024-01-01T00:00:00Z" []).1.success = none := by
  decide

/-- C2 (amended): A request whose body fails to parse is answered 200
with `success: false`, a request with a non-empty-after-trim string city
is answered 200 with `success: true`, but a request whose city is
missing, not a string, or whitespace-only is answered 400 with an
`{error: string}` body carrying no `success` field. -/
theorem c2_log_route_response_shape (now : String) (logs : List SearchLog) :
    ((logSearchRoute_POST .badJson now logs).1 =
      ⟨200, some false, some "Logging failed but request processed", none⟩) ∧
    (∀ s : String, jsStrEmpty (jsTrim s) = false →
      (logSearchRoute_POST (.parsed (.str s)) now logs).1 =
        ⟨200, some true, none, some now⟩) ∧
    (∀ s : String, jsStrEmpty (jsTrim s) = true →
      (logSearchRoute_POST (.parsed (.str s)) now logs).1 =
        ⟨400, none, some "City is required and must be a non-empty string", none⟩) ∧
    ((logSearchRoute_POST (.parsed .missing) now logs).1 =
      ⟨400, none, some "City is required and must be a non-empty string", none⟩) ∧
    ((logSearchRoute_POST (.parsed .notString) now logs).1 =
      ⟨400, none, some "City is required and must be a non-empty string", none⟩) := by
  refine ⟨rfl, ?_, ?_, rfl, rfl⟩ <;> intro s hs <;> simp [logSearchRoute_POST, hs]

/-- Witness for C2's amended statement: a valid city resolves 200 with
`success: true`, a whitespace-only city resolves 400. -/
theorem c2_log_route_response_shape_witness :
    ((logSearchRoute_POST (.parsed (.str "Paris")) "t0" []).1 =
      ⟨200, some true, none, some "t0"⟩) ∧
    ((logSearchRoute_POST (.parsed (.str "  ")) "t0" []).1 =
      ⟨400, none, some "City is required and must be a non-empty string", none⟩) :=
  ⟨(c2_log_route_response_shape "t0" []).2.1 "Paris" (by decide),
    (c2_log_route_response_shape "t0" []).2.2.1 "  " (by decide)⟩

/-- C3: with the upstream provider responding 503, the weather route
answers 503 — the upstream status is echoed through
`error.statusCode || 500` — although the claim (and the route's own doc
comment) allows only 200, 400 and 500. -/
theorem c3_upstream_status_echoed :
    weatherRoute_GET (some "London") (.httpError 503 none) =
      ⟨503, .error ERROR_MESSAGES.SERVER_ERROR⟩ ∧
    (weatherRoute_GET (some "London") (.httpError 503 none)).status ≠ 200 ∧
    (weatherRoute_GET (some "London") (.httpError 503 none)).status ≠ 400 ∧
    (weatherRoute_GET (some "London") (.httpError 503 none)).status ≠ 500 := by
  decide

/-- C6 counterexample: an OK response whose body fails to parse yields a
`WeatherAPIError` with the unknown-error message and status 500 — none of
the four claimed outcome kinds. -/
theorem c6_counterexample :
    WeatherService_fetchWeather "London" .okBadJson =
      .apiError ERROR_MESSAGES.UNKNOWN_ERROR 500 ∧
    claimedFourOutcome (WeatherService_fetchWeather "London" .okBadJson) = false := by
  decide

/-- C6 (amended): On a non-empty trimmed city the lookup client's result
is exactly one of five externally distinguishable outcomes: success with
a snapshot; a not-found error carrying the provider's message or a
default (upstream 400); the generic server-error message with the
upstream status (other upstream non-OK statuses); the generic network
message (timeout abort or transport `TypeError`); or the generic
unknown-error message with status 500 (malformed success body or any
other exception). -/
theorem c6_outcome_taxonomy (city : String) (h : jsStrEmpty (jsTrim city) = false) :
    (∀ d, WeatherService_fetchWeather city (.ok d) = .ok d) ∧
    (∀ m, WeatherService_fetchWeather city (.httpError 400 m) =
      .apiError (jsOrStr m ERROR_MESSAGES.CITY_NOT_FOUND) 400) ∧
    (∀ (st : Nat) (m : Option String), st ≠ 400 →
      WeatherService_fetchWeather city (.httpError st m) =
        .apiError ERROR_MESSAGES.SERVER_ERROR st) ∧
    (WeatherService_fetchWeather city .aborted =
      .networkError ERROR_MESSAGES.NETWORK_ERROR) ∧
    (WeatherService_fetchWeather city .fetchTypeError =
      .networkError ERROR_MESSAGES.NETWORK_ERROR) ∧
    (WeatherService_fetchWeather city .okBadJson =
      .apiError ERROR_MESSAGES.UNKNOWN_ERROR 500) ∧
    (WeatherService_fetchWeather city .otherFailure =
      .apiError ERROR_MESSAGES.UNKNOWN_ERROR 500) := by
  refine ⟨?_, ?_, ?_, ?_, ?_, ?_, ?_⟩ <;>
    first
      | intro st m hst
        simp [WeatherService_fetchWeather, h, hst]
      | intros
        simp [WeatherService_fetchWeather, h]

/-- Witness for C6's amended statement: upstream 404 yields the generic
server-error result with status 404. -/
theorem c6_outcome_taxonomy_witness :
    WeatherService_fetchWeather "Paris" (.httpError 404 none) =
      .apiError ERROR_MESSAGES.SERVER_ERROR 404 :=
  (c6_outcome_taxonomy "Paris" (by decide)).2.2.1 404 none (by decide)

/-- C7: The timeout constant is 10 seconds, a service constructed without
an override (as the route does) uses it, and an aborted outward call —
what the `AbortController` produces when the timeout elapses — yields the
network-error result instead of a hang. -/
theorem c7_timeout_bounded :
    WEATHER_API_TIMEOUT_MS = 10000 ∧
    serviceTimeout none = 10000 ∧
    (∀ t : Nat, t ≠ 0 → serviceTimeout (some t) = t) ∧
    (∀ city : String, jsStrEmpty (jsTrim city) = false →
      WeatherService_fetchWeather city .aborted =
        .networkError ERROR_MESSAGES.NETWORK_ERROR) := by
  refine ⟨rfl, rfl, ?_, ?_⟩
  · intro t ht
    simp [serviceTimeout, ht]
  · intro city hc
    simp [WeatherService_fetchWeather, hc]

/-- Witness for C7 at a concrete city. -/
theorem c7_timeout_bounded_witness :
    WeatherService_fetchWeather "London" .aborted =
      .networkError ERROR_MESSAGES.NETWORK_ERROR :=
  c7_timeout_bounded.2.2.2 "London" (by decide)
